import Mathlib

/-!
Verification of the racing-environment core of `data-science-notes`
(`modules/reinforcement-learning-racing/modules/{env.py, sprite.py}`).

Shallow embedding conventions:
* Python floats are modelled as `ℚ` (all constants in the source are exact
  decimals); machine time stamps (`pygame.time.get_ticks`, milliseconds) as `ℤ`.
* Methods become functions threading the object state explicitly.
* A Python expression that can raise becomes an `Except String` result.
* External collaborators (the `Track` class, the pygame keyboard/event queue,
  the gym CartPole simulator, the trigonometric direction in `Sprite.act`)
  are not in `src/`; their observable inputs are passed in as arguments,
  and where the spec documents their behaviour they are modelled from it,
  each marked `Modelled from the spec:`.
-/

set_option autoImplicit false

namespace Sprite

/-- `Sprite.MAX_VELOCITY = 3.45` (sprite.py line 12). -/
def MAX_VELOCITY : ℚ := 3.45

/-- `Sprite.MIN_VELOCITY = -1.92` (sprite.py line 13). -/
def MIN_VELOCITY : ℚ := -1.92

/-- `Sprite.acceleration = 0.025` (sprite.py line 19). -/
def acceleration : ℚ := 0.025

/-- `Sprite.steering = 0.037` (sprite.py line 20). -/
def steering : ℚ := 0.037

/-- The mutable state of a `Sprite` instance (sprite.py `__init__`, lines
30-34): position, rotation, fixed offset, and velocity. -/
structure State where
  position : ℚ × ℚ
  rotation : ℚ
  offset : ℚ × ℚ
  velocity : ℚ
  deriving Repr, DecidableEq

/-- `Sprite.__init__(position, rotation, offset)`: stores the three arguments
and sets `velocity = 0.` (sprite.py lines 30-34). -/
def init (position : ℚ × ℚ) (rotation : ℚ) (offset : ℚ × ℚ) : State :=
  { position := position, rotation := rotation, offset := offset, velocity := 0 }

/-- `Sprite.movement(acceleration)` (sprite.py lines 44-50):
`velocity += acceleration`, then clamp to `[MIN_VELOCITY, MAX_VELOCITY]`. -/
def movement (s : State) (acc : ℚ) : State :=
  let v := s.velocity + acc
  let v :=
    if v > MAX_VELOCITY then MAX_VELOCITY
    else if v < MIN_VELOCITY then MIN_VELOCITY
    else v
  { s with velocity := v }

/-- `Sprite.act(scaling)` (sprite.py lines 52-55):
`position += (cos rotation, -sin rotation) * velocity * scaling`.
The trigonometric direction is irrational, hence not representable in the
rational embedding; it is supplied as the argument `dir`, standing for
`(cos rotation, -sin rotation)`. Velocity and rotation are untouched. -/
def act (s : State) (dir : ℚ × ℚ) (scaling : ℚ) : State :=
  { s with position := (s.position.1 + dir.1 * s.velocity * scaling,
                        s.position.2 + dir.2 * s.velocity * scaling) }

/-- The `(motion, steering)` delta pair computed by `Sprite.act_actions`
(sprite.py lines 61-72) for a (non-`None`) action id: motion and steering
start at `0.` and each membership test adds or subtracts the class constant. -/
def act_deltas (a : ℤ) : ℚ × ℚ :=
  let motion : ℚ := 0
  let steer : ℚ := 0
  let motion := if a = 0 ∨ a = 4 ∨ a = 5 then motion + acceleration else motion
  let motion := if a = 1 ∨ a = 6 ∨ a = 7 then motion - acceleration else motion
  let steer := if a = 3 ∨ a = 5 ∨ a = 7 then steer - steering else steer
  let steer := if a = 2 ∨ a = 4 ∨ a = 6 then steer + steering else steer
  (motion, steer)

/-- `Sprite.act_actions(action)` for a non-`None` action (sprite.py lines
57-75): compute the deltas, apply `movement(motion)`, then
`rotation += steering`. -/
def act_actions (s : State) (a : ℤ) : State :=
  let d := act_deltas a
  let s := movement s d.1
  { s with rotation := s.rotation + d.2 }

/-- `Sprite.act_actions(None)` returns immediately (sprite.py lines 58-59);
this wrapper covers the optional argument. -/
def act_action_opt (s : State) (a : Option ℤ) : State :=
  match a with
  | none => s
  | some a => act_actions s a

/-- `Sprite.reset()` (sprite.py lines 77-79): `velocity = 0.; rotation = 0.`. -/
def reset (s : State) : State :=
  { s with velocity := 0, rotation := 0 }

/-- `Sprite.SPRITE_SIZE = [25, 25]` (sprite.py line 10); `car_size_offset`
is half of it (sprite.py line 42). -/
def car_size_offset : ℚ × ℚ := (25 / 2, 25 / 2)

/-- `Sprite.get_position()` (sprite.py lines 81-82):
`position + offset - car_size_offset`, the anchored draw/crop center. -/
def get_position (s : State) : ℚ × ℚ :=
  (s.position.1 + s.offset.1 - car_size_offset.1,
   s.position.2 + s.offset.2 - car_size_offset.2)

/-- Modelled from the spec: the agent sprite held by the Track Collaborator
exposes `steer(delta)`: `rotation += delta` (unclamped). The `Sprite` class
in `src/` does not define `steer`; `env.py` calls it on `track.sprite`
(lines 225 and 227), so the implementation lives outside `src/`. -/
def steer (s : State) (delta : ℚ) : State :=
  { s with rotation := s.rotation + delta }

/-- Velocity lies within the documented hard bounds. -/
def velocityInBounds (s : State) : Prop :=
  MIN_VELOCITY ≤ s.velocity ∧ s.velocity ≤ MAX_VELOCITY

instance (s : State) : Decidable (velocityInBounds s) := by
  unfold velocityInBounds; infer_instance

end Sprite

/-! ### Module-level constants and the snapshot crop (env.py) -/

/-- `SIZE = [500, 500]`, the fixed canvas extent (env.py line 13). -/
def SIZE : ℤ × ℤ := (500, 500)

/-- `FPS_CAP = 60.0`, the target frame rate (env.py line 15). -/
def FPS_CAP : ℚ := 60

/-- Numpy `.astype(int)` / Python `int()` on a float: truncation toward zero. -/
def truncToInt (q : ℚ) : ℤ := if 0 ≤ q then ⌊q⌋ else ⌈q⌉

/-- A PIL crop box `(left, upper, right, lower)`. -/
structure CropBox where
  left : ℤ
  upper : ℤ
  right : ℤ
  lower : ℤ
  deriving Repr, DecidableEq

/-- The crop box computed by `create_snapshot` when `size` and `center` are
given (env.py lines 44-48): `lu = np.maximum((center - size / 2).astype(int),
(0, 0))`, `rl = lu + size`, then `image.crop(box = (*lu, *rl))`. -/
def create_snapshot_box (center : ℚ × ℚ) (size : ℤ × ℤ) : CropBox :=
  let lux := max (truncToInt (center.1 - (size.1 : ℚ) / 2)) 0
  let luy := max (truncToInt (center.2 - (size.2 : ℚ) / 2)) 0
  { left := lux, upper := luy, right := lux + size.1, lower := luy + size.2 }

/-- The crop region lies entirely inside the 500x500 canvas. -/
def boxWithinCanvas (b : CropBox) : Prop :=
  0 ≤ b.left ∧ 0 ≤ b.upper ∧ b.right ≤ SIZE.1 ∧ b.lower ≤ SIZE.2

instance (b : CropBox) : Decidable (boxWithinCanvas b) := by
  unfold boxWithinCanvas; infer_instance

/-! ### Track Collaborator (external to `src/`) -/

/-- The telemetry record returned by `track.get_params()` — spec section 6:
`telemetry() -> {alive: bool, progress: float[0,100], lap: int}`. -/
structure Params where
  alive : Bool
  progress : ℚ
  lap : ℤ
  deriving Repr, DecidableEq

/-- Modelled from the spec: the observable state of the Track Collaborator
(`modules.Track`, not in `src/`) — the agent sprite it owns, plus counters
for how often the world was advanced (`act`) and reset (`reset_track`). -/
structure TrackState where
  sprite : Sprite.State
  ticks : ℕ
  resets : ℕ
  deriving Repr, DecidableEq

namespace Track

/-- Modelled from the spec: `advance(attenuation)` "advances/renders world
geometry and the agent's visual placement" (spec section 4.3 step 4); the
agent moves by `Sprite.act` with the trigonometric direction `dir`. -/
def act (t : TrackState) (dir : ℚ × ℚ) (attenuation : ℚ) : TrackState :=
  { t with ticks := t.ticks + 1, sprite := Sprite.act t.sprite dir attenuation }

/-- Modelled from the spec: `resetWorld(randomReset, hardReset)` returns the
world to a startable state; the agent sprite's `reset()` sets
`velocity = 0, rotation = 0` (position is the track's choice; kept here). -/
def reset_track (t : TrackState) (random_reset hard_reset : Bool) : TrackState :=
  { t with resets := t.resets + 1, sprite := Sprite.reset t.sprite }

end Track

/-! ### The racing environment `Env` (env.py lines 117-249) -/

/-- The mutable state of an `Env` instance: the `BaseEnv` class attributes
`done`/`exit` (env.py lines 92-93), the class attribute `attenuation = 1.0`
(line 121), the constructor fields (lines 125-164), and the owned track. -/
structure EnvState where
  frame_size : ℤ × ℤ
  frame_buffer : Bool
  agent_active : Bool
  done : Bool
  exit : Bool
  attenuation : ℚ
  prev_time : ℤ
  track : TrackState
  deriving Repr, DecidableEq

/-- The continuous key state polled by `pygame.key.get_pressed()`. -/
structure Keys where
  up : Bool
  down : Bool
  left : Bool
  right : Bool
  deriving Repr, DecidableEq

/-- The discrete event queue drained by `pygame.event.get()`. -/
structure Events where
  quit : Bool
  escape : Bool
  print_screen : Bool
  key_r : Bool
  deriving Repr, DecidableEq

namespace Env

/-- `Env.ENV_ACTION_SPACE = 4` (env.py line 119). -/
def ENV_ACTION_SPACE : ℤ := 4

/-- `Env.__init__` (env.py lines 125-164): stores the config, leaves
`done = exit = False` and `attenuation = 1.0` from the class attributes,
records the construction-time clock tick as `prev_time` (line 164), and
holds the track with its freshly initialized sprite. -/
def init (frame_size : ℤ × ℤ) (frame_buffer agent_active : Bool)
    (sprite : Sprite.State) (t0 : ℤ) : EnvState :=
  { frame_size := frame_size, frame_buffer := frame_buffer,
    agent_active := agent_active, done := false, exit := false,
    attenuation := 1, prev_time := t0,
    track := { sprite := sprite, ticks := 0, resets := 0 } }

/-- `Env.state(frame_active, params_active)` (env.py lines 166-181).
`telemetry` is what `track.get_params()` would report. The unconditional
line 179 `self.done = self.done or not params["alive"]` short-circuits when
`done` is already true; otherwise it subscripts `params`, which is `None`
when `params_active` is false — a `TypeError`. On that exception the
assignment never happens and nothing is returned. The returned triple is
`(frame, img, params)`; frame and raw image carry the same crop geometry. -/
def state (e : EnvState) (frame_active params_active : Bool) (telemetry : Params) :
    Except String (EnvState × (Option CropBox × Option CropBox × Option Params)) :=
  let frame : Option CropBox :=
    if frame_active then
      some (create_snapshot_box (Sprite.get_position e.track.sprite) e.frame_size)
    else none
  let params : Option Params := if params_active then some telemetry else none
  if e.done then
    Except.ok ({ e with done := true }, (frame, frame, params))
  else
    match params with
    | none => Except.error "TypeError: NoneType object is not subscriptable"
    | some p => Except.ok ({ e with done := !p.alive }, (frame, frame, params))

/-- `Env.event_handler` (env.py lines 211-242): only active when a window
exists (`not frame_buffer`). Continuous keys drive `movement`/`steer`
scaled by the current attenuation (up/down and left/right are `if`/`elif`
pairs); queued events set `exit`, save a snapshot (file write only, no
state), or reset the track. -/
def event_handler (e : EnvState) (keys : Keys) (events : Events) : EnvState :=
  if e.frame_buffer then e
  else
    let e :=
      if e.agent_active then e
      else
        let s := e.track.sprite
        let s :=
          if keys.up then Sprite.movement s (Sprite.acceleration * e.attenuation)
          else if keys.down then Sprite.movement s (-Sprite.acceleration * e.attenuation)
          else s
        let s :=
          if keys.left then Sprite.steer s (Sprite.steering * e.attenuation)
          else if keys.right then Sprite.steer s (-Sprite.steering * e.attenuation)
          else s
        { e with track := { e.track with sprite := s } }
    let e := if events.quit then { e with exit := true } else e
    let e := if events.escape then { e with exit := true } else e
    let e := if events.key_r then { e with track := Track.reset_track e.track false false } else e
    e

/-- `Env.step(action, sync, device)` (env.py lines 183-209): run the event
handler, clear the screen (render only), apply the action to the sprite when
present (`track.sprite.act_action`, the spec's table-driven decode — the
`Sprite` class in `src/` spells it `act_actions`), advance the track by the
current attenuation, render/flip (render only), and when `sync` recompute
`attenuation = (curr_time - prev_time) / (1000 / FPS_CAP)` from the clock
tick `curr_time` and wait out the frame cap. Returns `(None, False)`. -/
def step (e : EnvState) (action : Option ℤ) (sync : Bool) (keys : Keys)
    (events : Events) (dir : ℚ × ℚ) (curr_time : ℤ) :
    EnvState × (Option ℚ × Bool) :=
  let e := event_handler e keys events
  let e :=
    match action with
    | none => e
    | some a => { e with track := { e.track with sprite := Sprite.act_actions e.track.sprite a } }
  let e := { e with track := Track.act e.track dir e.attenuation }
  let e :=
    if sync then
      { e with attenuation := ((curr_time : ℚ) - (e.prev_time : ℚ)) / (1000 / FPS_CAP),
               prev_time := curr_time }
    else e
  (e, (none, false))

/-- `Env.reset(random_reset, hard_reset)` (env.py lines 244-245): delegates
to `track.reset_track`; the environment's own `done` flag is not touched. -/
def reset (e : EnvState) (random_reset hard_reset : Bool) : EnvState :=
  { e with track := Track.reset_track e.track random_reset hard_reset }

end Env

/-! ### The baseline environment `Baseline` (env.py lines 252-316) -/

namespace Baseline

/-- `Baseline.ENV_ACTION_SPACE = 2` (env.py line 254). -/
def ENV_ACTION_SPACE : ℤ := 2

/-- `Baseline.screen_width = 600` (env.py line 257). -/
def screen_width : ℤ := 600

/-- The observable state of the wrapped gym CartPole simulator (an opaque
collaborator): the cart position `env.state[0]`, the `x_threshold` bound,
and a counter of how many times `env.step` has been invoked on it. -/
structure CartSim where
  x : ℚ
  x_threshold : ℚ
  steps : ℕ
  deriving Repr, DecidableEq

/-- The mutable state of a `Baseline` instance: the wrapped simulator plus
the inherited `BaseEnv.done` class attribute (never written by `Baseline`). -/
structure BEnvState where
  sim : CartSim
  done : Bool
  deriving Repr, DecidableEq

/-- `Baseline.get_cart_location` (env.py lines 270-274):
`world_width = x_threshold * 2; scale = screen_width / world_width;
int(state[0] * scale + screen_width / 2.0)`. -/
def get_cart_location (sim : CartSim) : ℤ :=
  let world_width := sim.x_threshold * 2
  let scale := (screen_width : ℚ) / world_width
  truncToInt (sim.x * scale + (screen_width : ℚ) / 2)

/-- `view_width = 320` (env.py line 282). -/
def view_width : ℤ := 320

/-- The horizontal viewport slice chosen in `Baseline.state` (env.py lines
283-289): clamped to `[0, view_width)` near the left edge, to
`[screen_width - view_width, screen_width)` near the right edge, otherwise
centered on the cart location. -/
def slice_range (sim : CartSim) : ℤ × ℤ :=
  let cart_location := get_cart_location sim
  if cart_location < view_width / 2 then (0, view_width)
  else if cart_location > screen_width - view_width / 2 then
    (screen_width - view_width, screen_width)
  else (cart_location - view_width / 2, cart_location + view_width / 2)

/-- The processed frame produced by `Baseline.state`: the rendered screen is
a function of the wrapped simulator's state, and the observable geometry of
the fixed pipeline (row strip 160:320, horizontal viewport slice, resize /
grayscale / to-tensor) is carried by the chosen slice. -/
structure BFrame where
  sim : CartSim
  sliced : ℤ × ℤ
  deriving Repr, DecidableEq

/-- `Baseline.state(frame_active, params_active)` (env.py lines 276-301):
renders the wrapped simulator and runs the fixed pipeline unconditionally —
neither flag is ever read — and returns `frame, None, None` without touching
`self` (in particular `done` is never updated). -/
def state (b : BEnvState) (frame_active params_active : Bool) :
    BEnvState × (Option BFrame × Option BFrame × Option Params) :=
  (b, (some { sim := b.sim, sliced := slice_range b.sim }, none, none))

/-- `Baseline.step(action, sync, device)` (env.py lines 303-310): local
`reward, done = None, False`; only when an action is present is the wrapped
simulator stepped (`simStep` is its external transition, returning the new
simulator state, the scalar reward and its done flag). -/
def step (simStep : CartSim → ℤ → CartSim × ℚ × Bool) (b : BEnvState)
    (action : Option ℤ) : BEnvState × (Option ℚ × Bool) :=
  match action with
  | none => (b, (none, false))
  | some a =>
    let r := simStep b.sim a
    ({ b with sim := r.1 }, (some r.2.1, r.2.2))

/-- A concrete wrapped-simulator transition used for evaluation: it counts
the step and reports a unit reward. -/
def simStepTick : CartSim → ℤ → CartSim × ℚ × Bool :=
  fun c _ => ({ c with steps := c.steps + 1 }, 1, false)

end Baseline

/-! ### Operation traces over the racing environment -/

/-- One externally driven operation on a racing `Env`, with every external
input (telemetry, keyboard, clock tick, trigonometric direction) recorded. -/
inductive Op where
  | stateOp (frame_active params_active : Bool) (telemetry : Params)
  | stepOp (action : Option ℤ) (sync : Bool) (keys : Keys) (events : Events)
      (dir : ℚ × ℚ) (curr_time : ℤ)
  | resetOp (random_reset hard_reset : Bool)

/-- Apply one operation to the environment state. A `state` call that raises
(`TypeError`) aborts before the `self.done` assignment, leaving the
environment unchanged. -/
def applyOp (e : EnvState) (op : Op) : EnvState :=
  match op with
  | .stateOp fa pa tel =>
    match Env.state e fa pa tel with
    | .ok r => r.1
    | .error _ => e
  | .stepOp a sync keys events dir t => (Env.step e a sync keys events dir t).1
  | .resetOp r h => Env.reset e r h

/-- Run a list of operations left to right. -/
def run (e : EnvState) (ops : List Op) : EnvState := ops.foldl applyOp e

/-! ### Concrete fixtures for evaluation -/

/-- A sprite as the track would initialize it: centered, facing right. -/
def sprite0 : Sprite.State := Sprite.init (250, 250) 0 (0, 0)

/-- No key pressed. -/
def keys0 : Keys := ⟨false, false, false, false⟩

/-- Only the left arrow key pressed. -/
def keysLeft : Keys := ⟨false, false, true, false⟩

/-- Only the right arrow key pressed. -/
def keysRight : Keys := ⟨false, false, false, true⟩

/-- An empty event queue. -/
def events0 : Events := ⟨false, false, false, false⟩

/-- A freshly constructed windowed, manually driven racing environment. -/
def e0 : EnvState := Env.init (84, 84) false false sprite0 0

/-- `e0` after telemetry has reported `alive = false`. -/
def envDone : EnvState := { e0 with done := true }

/-- Telemetry of a live run. -/
def tel0 : Params := ⟨true, 0, 0⟩

/-- A concrete wrapped-simulator state: cart at the exact screen center. -/
def sim0 : Baseline.CartSim := ⟨0, 2.4, 0⟩

/-- A freshly constructed baseline environment. -/
def b0 : Baseline.BEnvState := ⟨sim0, false⟩

/-! ## Helper lemmas -/

theorem Sprite.movement_velocityInBounds (s : Sprite.State) (acc : ℚ) :
    Sprite.velocityInBounds (Sprite.movement s acc) := by
  unfold Sprite.movement Sprite.velocityInBounds
  dsimp only
  split
  · constructor
    · unfold Sprite.MIN_VELOCITY Sprite.MAX_VELOCITY; norm_num
    · exact le_refl _
  · split
    · constructor
      · exact le_refl _
      · unfold Sprite.MIN_VELOCITY Sprite.MAX_VELOCITY; norm_num
    · constructor
      · linarith
      · linarith

theorem Sprite.act_actions_velocityInBounds (s : Sprite.State) (a : ℤ) :
    Sprite.velocityInBounds (Sprite.act_actions s a) := by
  unfold Sprite.act_actions Sprite.velocityInBounds
  dsimp only
  exact Sprite.movement_velocityInBounds s (Sprite.act_deltas a).1

/-- Outside `[0, 7]` every membership test in `act_actions` is false, so both
deltas are zero. -/
theorem Sprite.act_deltas_out_of_range (a : ℤ) (h : a < 0 ∨ 8 ≤ a) :
    Sprite.act_deltas a = (0, 0) := by
  unfold Sprite.act_deltas
  have h0 : ¬(a = 0 ∨ a = 4 ∨ a = 5) := by omega
  have h1 : ¬(a = 1 ∨ a = 6 ∨ a = 7) := by omega
  have h2 : ¬(a = 3 ∨ a = 5 ∨ a = 7) := by omega
  have h3 : ¬(a = 2 ∨ a = 4 ∨ a = 6) := by omega
  simp [h0, h1, h2, h3]

theorem Sprite.movement_zero (s : Sprite.State) (h : Sprite.velocityInBounds s) :
    Sprite.movement s 0 = s := by
  obtain ⟨hl, hu⟩ := h
  unfold Sprite.movement
  dsimp only
  rw [add_zero]
  rw [if_neg (by exact not_lt.mpr hu), if_neg (by exact not_lt.mpr hl)]

/-- The event handler never touches `done`, `attenuation`, `prev_time`, or
the track's advance counter. -/
theorem Env.event_handler_fields (e : EnvState) (k : Keys) (v : Events) :
    (Env.event_handler e k v).done = e.done ∧
    (Env.event_handler e k v).attenuation = e.attenuation ∧
    (Env.event_handler e k v).prev_time = e.prev_time ∧
    (Env.event_handler e k v).track.ticks = e.track.ticks := by
  unfold Env.event_handler
  cases hfb : e.frame_buffer <;> cases haa : e.agent_active <;>
    cases hq : v.quit <;> cases hesc : v.escape <;> cases hr : v.key_r <;>
      simp [hfb, haa, hq, hesc, hr, Track.reset_track]

/-- `step` never touches `done`. -/
theorem Env.step_done (e : EnvState) (a : Option ℤ) (sync : Bool) (k : Keys)
    (v : Events) (dir : ℚ × ℚ) (t : ℤ) :
    (Env.step e a sync k v dir t).1.done = e.done := by
  unfold Env.step
  cases a <;> split_ifs <;>
    simp [Track.act, (Env.event_handler_fields e k v).1]

/-- Every operation preserves an already-set `done` flag. -/
theorem applyOp_done (e : EnvState) (op : Op) (h : e.done = true) :
    (applyOp e op).done = true := by
  cases op with
  | stateOp fa pa tel =>
    unfold applyOp Env.state
    simp [h]
  | stepOp a sync k v dir t =>
    unfold applyOp
    rw [Env.step_done]
    exact h
  | resetOp r hh =>
    unfold applyOp Env.reset
    exact h

/-- Once set, `done` survives any operation trace. -/
theorem run_done (e : EnvState) (ops : List Op) (h : e.done = true) :
    (run e ops).done = true := by
  induction ops generalizing e with
  | nil => exact h
  | cons op ops ih => exact ih _ (applyOp_done e op h)

/-- One clamped crop edge: when the center leaves room for half the frame,
the far edge of the crop stays inside the canvas extent `L`. -/
theorem crop_edge_bound (c : ℚ) (s L : ℤ) (hsL : s ≤ L)
    (hc : c + (s : ℚ) / 2 ≤ (L : ℚ)) :
    max (truncToInt (c - (s : ℚ) / 2)) 0 + s ≤ L := by
  have hq : c - (s : ℚ) / 2 ≤ ((L - s : ℤ) : ℚ) := by push_cast; linarith
  have htr : truncToInt (c - (s : ℚ) / 2) ≤ L - s := by
    unfold truncToInt
    split
    · have h2 := Int.floor_mono hq
      simpa using h2
    · have h0 : (c - (s : ℚ) / 2) ≤ 0 := le_of_not_le (by assumption)
      have h2 : ⌈c - (s : ℚ) / 2⌉ ≤ 0 := Int.ceil_le.mpr (by exact_mod_cast h0)
      omega
  have hm : max (truncToInt (c - (s : ℚ) / 2)) 0 ≤ L - s :=
    max_le htr (by omega)
  omega

/-! ## Claims -/

/-- C1: the claim says `state(frame_active = True, params_active = False)`
returns the image observation with telemetry absent and completes without
error. The code contradicts it: line 179 of env.py subscripts `params`
unconditionally, and with `params_active = False` and `done` still `False`
(here: a freshly constructed environment) `params` is `None`, so the call
raises a `TypeError` instead of completing. This theorem evaluates the
embedded code at that failing input. -/
theorem C1_state_without_telemetry_raises :
    Env.state e0 true false tel0 =
      Except.error "TypeError: NoneType object is not subscriptable" := rfl

/-- C2 counterexample: with the crop center at the canvas corner `(500, 500)`
and the configured frame size `(84, 84)`, `create_snapshot` computes the box
`(458, 458, 542, 542)`, which extends 42 pixels past the right and bottom
canvas edges — the claim that the crop never leaves the 500x500 canvas is
false. -/
theorem C2_crop_exceeds_canvas :
    ¬ boxWithinCanvas (create_snapshot_box (500, 500) (84, 84)) := by
  have hbox : create_snapshot_box (500, 500) (84, 84) =
      { left := 458, upper := 458, right := 542, lower := 542 } := by
    unfold create_snapshot_box truncToInt
    norm_num [max_def, CropBox.mk.injEq, Int.floor_ofNat]
  rw [hbox]
  unfold boxWithinCanvas SIZE
  norm_num

/-- C2 amended: the crop's top-left corner is clamped to be at least
`(0, 0)`, so the crop never extends past the left or top canvas edge; the
right (resp. bottom) crop edge stays inside the canvas only under the extra
condition that the center is at least half the frame away from that edge
(and the frame fits the canvas). -/
theorem C2_crop_clamp (center : ℚ × ℚ) (size : ℤ × ℤ) :
    0 ≤ (create_snapshot_box center size).left ∧
    0 ≤ (create_snapshot_box center size).upper ∧
    (size.1 ≤ SIZE.1 → center.1 + (size.1 : ℚ) / 2 ≤ ((SIZE.1 : ℤ) : ℚ) →
      (create_snapshot_box center size).right ≤ SIZE.1) ∧
    (size.2 ≤ SIZE.2 → center.2 + (size.2 : ℚ) / 2 ≤ ((SIZE.2 : ℤ) : ℚ) →
      (create_snapshot_box center size).lower ≤ SIZE.2) := by
  refine ⟨le_max_right _ 0, le_max_right _ 0, ?_, ?_⟩
  · intro hsL hc
    exact crop_edge_bound center.1 size.1 SIZE.1 hsL hc
  · intro hsL hc
    exact crop_edge_bound center.2 size.2 SIZE.2 hsL hc

/-- C2 witness: a center safely inside the canvas, frame size `(84, 84)`:
the hypotheses hold and the whole crop box stays within the canvas. -/
theorem C2_crop_clamp_witness :
    0 ≤ (create_snapshot_box (100, 100) (84, 84)).left ∧
    (create_snapshot_box (100, 100) (84, 84)).right ≤ SIZE.1 :=
  ⟨(C2_crop_clamp (100, 100) (84, 84)).1,
   (C2_crop_clamp (100, 100) (84, 84)).2.2.1 (by decide) (by norm_num [SIZE])⟩

/-- C3 counterexample: `Env.reset` only delegates to `track.reset_track`
(env.py lines 244-245) and never clears the environment's `done` flag, so on
an environment whose telemetry already reported `alive = false` the flag is
still `true` right after the reset — the claim that a reset returns the
environment to a not-done state is false. -/
theorem C3_reset_keeps_done : (Env.reset envDone false false).done = true := rfl

/-- C3 amended: `done` is monotonic — a `state` call with telemetry
reporting `alive = false` sets it, and once set it survives every further
`state`, `step` or `reset` operation (a reset does not clear it; only
constructing a fresh environment yields a not-done state). -/
theorem C3_done_monotonic :
    (∀ (e : EnvState) (fa : Bool) (tel : Params), tel.alive = false →
      (applyOp e (Op.stateOp fa true tel)).done = true) ∧
    (∀ (e : EnvState) (ops : List Op), e.done = true →
      (run e ops).done = true) := by
  constructor
  · intro e fa tel h
    unfold applyOp Env.state
    cases hd : e.done <;> simp [hd, h]
  · exact run_done

/-- C3 witness: a live-then-dead telemetry run on the concrete fresh
environment, and a trace (reset, then an untimed step) over the already-done
environment. -/
theorem C3_done_monotonic_witness :
    (applyOp e0 (Op.stateOp true true ⟨false, 0, 0⟩)).done = true ∧
    (run envDone [Op.resetOp false false,
      Op.stepOp none false keys0 events0 (1, 0) 0]).done = true :=
  ⟨C3_done_monotonic.1 e0 true ⟨false, 0, 0⟩ rfl,
   C3_done_monotonic.2 envDone _ rfl⟩

/-- C4 counterexample: action id 7 is decodable (its delta pair is nonzero),
yet it does not lie within the racing environment's declared action-space
size `ENV_ACTION_SPACE = 4` — validating against the declared size rejects
a decodable action, so the claim is false. -/
theorem C4_action7_decodable_but_rejected :
    Sprite.act_deltas 7 ≠ (0, 0) ∧ ¬ ((7 : ℤ) < Env.ENV_ACTION_SPACE) := by
  constructor
  · norm_num [Sprite.act_deltas, Sprite.acceleration, Sprite.steering,
      Prod.mk.injEq]
  · norm_num [Env.ENV_ACTION_SPACE]

/-- C4 amended: the racing decode table accepts exactly the ids `0..7`
(eight actions), while the racing variant declares `ENV_ACTION_SPACE = 4`,
so validation against the declared size rejects the decodable ids `4..7`;
the baseline variant's declared size is 2 as claimed. -/
theorem C4_action_space :
    Env.ENV_ACTION_SPACE = 4 ∧ Baseline.ENV_ACTION_SPACE = 2 ∧
    (∀ a : ℤ, Sprite.act_deltas a ≠ (0, 0) ↔ 0 ≤ a ∧ a < 8) := by
  refine ⟨rfl, rfl, fun a => ⟨?_, ?_⟩⟩
  · intro h
    by_contra hc
    exact h (Sprite.act_deltas_out_of_range a (by omega))
  · rintro ⟨h0, h8⟩
    interval_cases a <;>
      norm_num [Sprite.act_deltas, Sprite.acceleration, Sprite.steering,
        Prod.mk.injEq]

/-- C4 witness: the amended equivalence applied at the concrete decodable
action id 7. -/
theorem C4_action_space_witness : Sprite.act_deltas 7 ≠ (0, 0) :=
  (C4_action_space.2.2 7).mpr (by decide)

/-- C5 counterexample: in timed mode the attenuation is recomputed as
`(curr_time - prev_time) / (1000 / FPS_CAP)`; the clock has millisecond
resolution, so a synced step arriving on the same millisecond tick as the
recorded previous timestamp (here both 0) yields attenuation exactly 0 —
the claim that the recomputed value is always strictly positive is false. -/
theorem C5_attenuation_zero :
    ¬ (0 < (Env.step e0 none true keys0 events0 (1, 0) 0).1.attenuation) := by
  have h : (Env.step e0 none true keys0 events0 (1, 0) 0).1.attenuation = 0 := by
    simp [Env.step, Env.event_handler, Track.act, e0, Env.init, keys0, events0,
      FPS_CAP]
  rw [h]
  norm_num

/-- C5 amended: the attenuation factor starts at `1.0` at construction, is
left unchanged by any step that does not request sync, and when a synced
step recomputes it from a monotone clock the result is nonnegative (elapsed
time divided by the nominal frame duration `1000 / FPS_CAP`); it is zero —
not strictly positive — when no full millisecond has elapsed. -/
theorem C5_attenuation :
    (∀ (fs : ℤ × ℤ) (fb aa : Bool) (s : Sprite.State) (t0 : ℤ),
      (Env.init fs fb aa s t0).attenuation = 1) ∧
    (∀ (e : EnvState) (a : Option ℤ) (k : Keys) (v : Events) (dir : ℚ × ℚ)
      (t : ℤ), (Env.step e a false k v dir t).1.attenuation = e.attenuation) ∧
    (∀ (e : EnvState) (a : Option ℤ) (k : Keys) (v : Events) (dir : ℚ × ℚ)
      (t : ℤ), e.prev_time ≤ t →
      0 ≤ (Env.step e a true k v dir t).1.attenuation) := by
  refine ⟨fun fs fb aa s t0 => rfl, ?_, ?_⟩
  · intro e a k v dir t
    unfold Env.step
    cases a <;> simp [Track.act, (Env.event_handler_fields e k v).2.1]
  · intro e a k v dir t h
    have hnum : (0 : ℚ) ≤ (t : ℚ) - (e.prev_time : ℚ) := by
      rw [sub_nonneg]
      exact_mod_cast h
    have hden : (0 : ℚ) ≤ 1000 / FPS_CAP := by norm_num [FPS_CAP]
    unfold Env.step
    cases a <;>
      simp [Track.act, (Env.event_handler_fields e k v).2.2.1] <;>
      exact div_nonneg hnum hden

/-- C5 witness: a headless agent-driven construction has attenuation 1, and
a synced step 100 ms after the recorded timestamp has nonnegative
attenuation. -/
theorem C5_attenuation_witness :
    (Env.init (84, 84) true true sprite0 0).attenuation = 1 ∧
    0 ≤ (Env.step e0 none true keys0 events0 (1, 0) 100).1.attenuation :=
  ⟨C5_attenuation.1 (84, 84) true true sprite0 0,
   C5_attenuation.2.2 e0 none keys0 events0 (1, 0) 100 (by decide)⟩

/-- C6 counterexample: the claim says step with an absent action still
advances the simulation by one tick for both variants; but `Baseline.step`
only calls the wrapped simulator inside `if action is not None` (env.py
lines 305-308), so with no action the wrapped simulator's step counter does
not advance at all. -/
theorem C6_baseline_absent_action_no_advance :
    ¬ ((Baseline.step Baseline.simStepTick b0 none).1.sim.steps
        = b0.sim.steps + 1) := by
  simp [Baseline.step, Baseline.simStepTick, b0, sim0]

/-- C6 amended: with the action absent, the racing variant still advances
the track by exactly one tick (physics/rendering occur) and returns
`(None, False)`; the baseline variant's step is a complete no-op — it does
not step the wrapped simulator and returns `(None, False)` with its state
unchanged. -/
theorem C6_step_absent_action :
    (∀ (e : EnvState) (sync : Bool) (k : Keys) (v : Events) (dir : ℚ × ℚ)
      (t : ℤ),
      (Env.step e none sync k v dir t).1.track.ticks = e.track.ticks + 1 ∧
      (Env.step e none sync k v dir t).2 = (none, false)) ∧
    (∀ (simStep : Baseline.CartSim → ℤ → Baseline.CartSim × ℚ × Bool)
      (b : Baseline.BEnvState),
      Baseline.step simStep b none = (b, (none, false))) := by
  constructor
  · intro e sync k v dir t
    constructor
    · simp only [Env.step]
      split_ifs <;> simp [Track.act, (Env.event_handler_fields e k v).2.2.2]
    · rfl
  · intro simStep b
    rfl

/-- C7 counterexample: the claim fixes its sign convention by "positive
steering is the steer-right direction used by the manual controls"; but the
manual controls steer right with a negative delta — at attenuation 1 the
right-arrow key turns the agent's rotation to `-steering`, not `+steering`
(env.py lines 226-227). -/
theorem C7_manual_steer_right_is_negative :
    (Env.event_handler e0 keysRight events0).track.sprite.rotation
        = -Sprite.steering ∧
    (Env.event_handler e0 keysRight events0).track.sprite.rotation
        ≠ Sprite.steering := by
  have h : (Env.event_handler e0 keysRight events0).track.sprite.rotation
      = -Sprite.steering := by
    simp [Env.event_handler, e0, Env.init, sprite0, Sprite.init, Sprite.steer,
      keysRight, events0]
  refine ⟨h, ?_⟩
  rw [h]
  norm_num [Sprite.steering]

/-- C7 amended: each of the 8 racing action ids decodes to the documented
`(motionDelta, steeringDelta)` pair covering {no-op, accelerate, decelerate}
x {no-op, steer-left, steer-right}; since the manual controls' steer-right
key applies `-steering` (and steer-left `+steering`), "accelerate + steer
right" is action id 5 with `motionDelta = +acceleration` and
`steeringDelta = -steering` — positive steering is the steer-left
direction. -/
theorem C7_decode_table :
    Sprite.act_deltas 0 = (Sprite.acceleration, 0) ∧
    Sprite.act_deltas 1 = (-Sprite.acceleration, 0) ∧
    Sprite.act_deltas 2 = (0, Sprite.steering) ∧
    Sprite.act_deltas 3 = (0, -Sprite.steering) ∧
    Sprite.act_deltas 4 = (Sprite.acceleration, Sprite.steering) ∧
    Sprite.act_deltas 5 = (Sprite.acceleration, -Sprite.steering) ∧
    Sprite.act_deltas 6 = (-Sprite.acceleration, Sprite.steering) ∧
    Sprite.act_deltas 7 = (-Sprite.acceleration, -Sprite.steering) ∧
    (Env.event_handler e0 keysLeft events0).track.sprite.rotation
        = Sprite.steering ∧
    (Env.event_handler e0 keysRight events0).track.sprite.rotation
        = -Sprite.steering := by
  refine ⟨?_, ?_, ?_, ?_, ?_, ?_, ?_, ?_, ?_, ?_⟩ <;>
    simp [Sprite.act_deltas, Env.event_handler, e0, Env.init, sprite0,
      Sprite.init, Sprite.steer, keysLeft, keysRight, events0, Prod.mk.injEq]

/-- C8: an action id outside the decode table (outside `[0, 7]`) produces
zero motion and zero steering deltas, and on any agent state whose velocity
is within bounds the state is left completely unchanged — no error is
raised. -/
theorem C8_out_of_range_noop (s : Sprite.State) (a : ℤ)
    (hout : a < 0 ∨ 8 ≤ a) (hv : Sprite.velocityInBounds s) :
    Sprite.act_actions s a = s := by
  unfold Sprite.act_actions
  rw [Sprite.act_deltas_out_of_range a hout]
  dsimp only
  rw [Sprite.movement_zero s hv, add_zero]

/-- C8 witness: action id 8 on the fresh sprite (velocity 0, in bounds)
changes nothing. -/
theorem C8_out_of_range_noop_witness :
    Sprite.act_actions sprite0 8 = sprite0 :=
  C8_out_of_range_noop sprite0 8 (Or.inr (by norm_num))
    (by norm_num [sprite0, Sprite.init, Sprite.velocityInBounds,
      Sprite.MIN_VELOCITY, Sprite.MAX_VELOCITY])

/-- C9: the velocity invariant — velocity is 0 (hence within
`[MIN_VELOCITY, MAX_VELOCITY]`) at construction, `movement` always clamps
back into the bounds whatever the delta's magnitude or sign, action
decoding (which applies `movement`) always lands in bounds, `reset` returns
velocity to 0 (in bounds), and physics integration never changes
velocity. -/
theorem C9_velocity_invariant :
    (∀ (p : ℚ × ℚ) (r : ℚ) (o : ℚ × ℚ), (Sprite.init p r o).velocity = 0 ∧
      Sprite.velocityInBounds (Sprite.init p r o)) ∧
    (∀ (s : Sprite.State) (acc : ℚ),
      Sprite.velocityInBounds (Sprite.movement s acc)) ∧
    (∀ (s : Sprite.State) (a : ℤ),
      Sprite.velocityInBounds (Sprite.act_actions s a)) ∧
    (∀ s : Sprite.State, (Sprite.reset s).velocity = 0 ∧
      Sprite.velocityInBounds (Sprite.reset s)) ∧
    (∀ (s : Sprite.State) (dir : ℚ × ℚ) (scaling : ℚ),
      (Sprite.act s dir scaling).velocity = s.velocity) := by
  refine ⟨fun p r o => ⟨rfl, ?_⟩, Sprite.movement_velocityInBounds,
    Sprite.act_actions_velocityInBounds, fun s => ⟨rfl, ?_⟩,
    fun s dir scaling => rfl⟩
  · norm_num [Sprite.init, Sprite.velocityInBounds, Sprite.MIN_VELOCITY,
      Sprite.MAX_VELOCITY]
  · norm_num [Sprite.reset, Sprite.velocityInBounds, Sprite.MIN_VELOCITY,
      Sprite.MAX_VELOCITY]

/-- C10: the baseline variant's `state` ignores both of its flags — the
result is the same whatever the flags are, the environment state (and in
particular the `done` flag) is untouched, the processed frame is always
present (even with `frame_active = false`), and telemetry is always
absent. -/
theorem C10_baseline_state_ignores_flags (b : Baseline.BEnvState)
    (fa pa fa2 pa2 : Bool) :
    Baseline.state b fa pa = Baseline.state b fa2 pa2 ∧
    (Baseline.state b fa pa).1 = b ∧
    ((Baseline.state b fa pa).2.1).isSome = true ∧
    (Baseline.state b fa pa).2.2.2 = none ∧
    (Baseline.state b fa pa).1.done = b.done :=
  ⟨rfl, rfl, rfl, rfl, rfl⟩
